import Mathlib

set_option maxRecDepth 10000

/-!
Shallow embedding of `src/dfrobot_rgb_panel.py`, the DFRobot 16x8 RGB LED
panel driver.

The driver holds one piece of persistent state: a `bytearray` command buffer
(size `17 * len(self.i2c_device)`; one I2C device is configured in
`__init__`, so 17 bytes), plus the `auto_write` flag.  We model the buffer as
a `List Nat` of byte values and the I2C transport by a counter of `show`
(flush) transactions.  A Python `bytearray` store `buf[i] = v` raises
`IndexError` when `i` is out of range and `ValueError` when `v` is not a
byte; we model a raised exception by `Except.error` whose payload is the
driver state at the moment the exception is raised (earlier stores of the
same call have already happened, as in Python).  A method that returns
normally is `Except.ok`.
-/

/-- Read a byte of the buffer: Python `buf[i]`.  The driver only reads
`self._buffer[1]`, which is always in range, so the default 0 is never
reached on the paths we verify. -/
def byte (l : List Nat) (i : Nat) : Nat := l.getD i 0

/-- Python `a & ~m` on non-negative unbounded integers (`~` is the two's
complement NOT).  The result keeps exactly the bits of `a` that are not set
in `m`; since `a &&& m` is the part of `a` supported on the bits of `m` this
equals `a - (a &&& m)`. -/
def pyAndNot (a m : Nat) : Nat := a - (a &&& m)

/-- Driver state of `Panel`: the command buffer, the `auto_write` flag, and
an instrumentation counter of how many `show` (I2C flush) transactions
were performed. -/
structure Panel where
  buffer : List Nat
  auto_write : Bool
  shows : Nat
deriving DecidableEq

namespace Panel

def write_reg : Nat := 0x02
def COLOR : Nat := 0x03
def PIX_X : Nat := 0x04
def PIX_Y : Nat := 0x05
def BITMAP : Nat := 0x06
def STR : Nat := 0x07

def UNCLEAR : Nat := 0x0
def CLEAR : Nat := 0x1
def Left : Nat := 0x0 <<< 1
def Right : Nat := 0x01 <<< 1

def UNSCROLL : Nat := 0x0 <<< 2
def SCROLL : Nat := 0x1 <<< 2
def PIX_ENABLE : Nat := 0x01 <<< 3
def BITMAP_ENABLE : Nat := 0x10 <<< 3
def STR_ENABLE : Nat := 0x11 <<< 3

def QUENCH : Nat := 0
def RED : Nat := 1
def GREEN : Nat := 2
def YELLOW : Nat := 3
def BLUE : Nat := 4
def PURRPLE : Nat := 5
def CYAN : Nat := 6
def WHITE : Nat := 7
def SIZE : Nat := 50

/-- Successful `Panel.__init__` with an I2C bus: a zero-filled buffer of
`self._buffer_size * len(self.i2c_device) = 17 * 1` bytes, the given
`auto_write` flag, and no transaction performed yet. -/
def init (auto_write : Bool) : Panel :=
  { buffer := List.replicate 17 0, auto_write := auto_write, shows := 0 }

/-- Method `Panel.show`: one I2C write transaction per configured device
(here one), transmitting the buffer.  The buffer is untouched; we count the
transaction. -/
def show' (p : Panel) : Panel := { p with shows := p.shows + 1 }

/-- The trailing `if self._auto_write: self.show()` of every mutating
method. -/
def maybeShow (p : Panel) : Panel := if p.auto_write then show' p else p

/-- Python `self._buffer[i] = v` on the `bytearray`: succeeds exactly when
`i` is in range and `v` is a byte, otherwise raises (`IndexError` or
`ValueError`) with the state unchanged by this particular store. -/
def wr (p : Panel) (i v : Nat) : Except Panel Panel :=
  if i < p.buffer.length ∧ v < 256 then
    .ok { p with buffer := p.buffer.set i v }
  else
    .error p

/-- Sequencing of two statements: a raised exception propagates, skipping
the rest of the method body. -/
def andThen (r : Except Panel Panel) (f : Panel → Except Panel Panel) :
    Except Panel Panel :=
  match r with
  | .ok p => f p
  | .error e => .error e

/-- Method `Panel.scroll(direction)`.  Directions are `None`
(`Option.none`) or an integer (`Panel.Left = 0`, `Panel.Right = 2`).
Anything else is rejected with a usage message and an early `return`,
leaving the state untouched.  The left branch computes
`(0x01 << 2) & (~(0x01 << 1))` and ORs it into byte 1; the trailing
`else: return` of the source is unreachable and folded into the last
branch. -/
def scroll (p : Panel) (direction : Option Nat) : Except Panel Panel :=
  if direction ≠ none ∧ direction ≠ some Right ∧ direction ≠ some Left then
    .ok p
  else if direction = none then
    andThen (wr p 1 (pyAndNot (byte p.buffer 1) (0x01 <<< 2))) fun p =>
    .ok (maybeShow p)
  else if direction = some Right then
    andThen (wr p 1 (byte p.buffer 1 ||| ((0x01 <<< 2) ||| (0x01 <<< 1)))) fun p =>
    .ok (maybeShow p)
  else
    andThen (wr p 1 (byte p.buffer 1 ||| pyAndNot (0x01 <<< 2) (0x01 <<< 1))) fun p =>
    .ok (maybeShow p)

/-- Method `Panel.display(picIndex, color)`: draw a built-in bitmap. -/
def display (p : Panel) (picIndex color : Nat) : Except Panel Panel :=
  andThen (wr p 0 write_reg) fun p =>
  andThen (wr p 1 ((byte p.buffer 1 &&& 0xe6) ||| (0x02 <<< 3))) fun p =>
  andThen (wr p 2 color) fun p =>
  andThen (wr p 4 picIndex) fun p =>
  .ok (maybeShow p)

/-- The character-copying loop of `Panel.print`:
`for i in range(length): self._buffer[6 + i] = ord(text[i])`.  The text is
given as the list of code points of its characters. -/
def writeString : Panel → List Nat → Nat → Except Panel Panel
  | p, [], _ => .ok p
  | p, c :: cs, i =>
    andThen (wr p (6 + i) c) fun p => writeString p cs (i + 1)

/-- Method `Panel.print(text, color)`: texts longer than `SIZE = 50` are
rejected with a usage message and an early `return`. -/
def print (p : Panel) (text : List Nat) (color : Nat) : Except Panel Panel :=
  if text.length > SIZE then
    .ok p
  else
    andThen (wr p 0 write_reg) fun p =>
    andThen (wr p 1 ((byte p.buffer 1 &&& 0xe6) ||| (0x03 <<< 3))) fun p =>
    andThen (wr p 2 color) fun p =>
    andThen (writeString p text 0) fun p =>
    .ok (maybeShow p)

/-- Method `Panel.pixel(x, y, color)`. -/
def pixel (p : Panel) (x y color : Nat) : Except Panel Panel :=
  andThen (wr p 0 write_reg) fun p =>
  andThen (wr p 1 ((byte p.buffer 1 &&& 0xe6) ||| (0x01 <<< 3))) fun p =>
  andThen (wr p 2 color) fun p =>
  andThen (wr p 3 x) fun p =>
  andThen (wr p 4 y) fun p =>
  .ok (maybeShow p)

/-- Method `Panel.fillScreen(color)`. -/
def fillScreen (p : Panel) (color : Nat) : Except Panel Panel :=
  andThen (wr p 0 write_reg) fun p =>
  andThen (wr p 1 0x01) fun p =>
  andThen (wr p 1 ((byte p.buffer 1 &&& 0xe7) ||| (0x01 <<< 3))) fun p =>
  andThen (wr p 2 color) fun p =>
  andThen (wr p 3 0x00) fun p =>
  andThen (wr p 4 0x00) fun p =>
  .ok (maybeShow p)

/-- Method `Panel.clear()`. -/
def clear (p : Panel) : Except Panel Panel :=
  andThen (wr p 0 write_reg) fun p =>
  andThen (wr p 1 0x01) fun p =>
  andThen (wr p 2 0x0) fun p =>
  .ok (maybeShow p)

/-- The driver state after a call, whether the call returned normally or
raised: the buffer is shared state, so a raised exception leaves the
partial mutations in place. -/
def resState : Except Panel Panel → Panel
  | .ok p => p
  | .error e => e

/-- True when the call returned normally (no Python exception). -/
def isOk : Except Panel Panel → Bool
  | .ok _ => true
  | .error _ => false

end Panel

/-- The 2-bit display-mode field: bits 3 and 4 of the mode/control byte
(byte 1). -/
def modeField (b : Nat) : Nat := (b >>> 3) &&& 3

/-- Buffers reachable from construction: fixed length 17, all entries
bytes. -/
def validBuf (l : List Nat) : Prop := l.length = 17 ∧ ∀ b ∈ l, b < 256

instance (l : List Nat) : Decidable (validBuf l) :=
  inferInstanceAs (Decidable (l.length = 17 ∧ ∀ b ∈ l, b < 256))

/-! Basic lemmas about the byte accessor and the write primitive. -/

theorem byte_set_self (l : List Nat) (i v : Nat) (h : i < l.length) :
    byte (l.set i v) i = v := by
  simp [byte, List.getD, List.getElem?_set_self h]

theorem byte_set_ne (l : List Nat) (i j v : Nat) (h : i ≠ j) :
    byte (l.set i v) j = byte l j := by
  simp [byte, List.getD, List.getElem?_set_ne h]

theorem byte_lt (l : List Nat) (i : Nat) (h : ∀ b ∈ l, b < 256) :
    byte l i < 256 := by
  simp only [byte, List.getD, List.get?_eq_getElem?]
  cases hg : l[i]? with
  | none => simp
  | some b => simpa using h b (List.getElem?_mem hg)

theorem and_or_lt (b m o : Nat) (hm : m < 256) (ho : o < 256) :
    (b &&& m) ||| o < 256 := by
  have h256 : (256 : Nat) = 2 ^ 8 := by norm_num
  rw [h256] at hm ho ⊢
  exact Nat.or_lt_two_pow (lt_of_le_of_lt Nat.and_le_right hm) ho

theorem or_lt (a b : Nat) (ha : a < 256) (hb : b < 256) : a ||| b < 256 := by
  have h256 : (256 : Nat) = 2 ^ 8 := by norm_num
  rw [h256] at ha hb ⊢
  exact Nat.or_lt_two_pow ha hb

theorem pyAndNot_le (a m : Nat) : pyAndNot a m ≤ a := Nat.sub_le _ _

namespace Panel

theorem wr_ok (p : Panel) (i v : Nat) (h1 : i < p.buffer.length)
    (h2 : v < 256) : wr p i v = .ok { p with buffer := p.buffer.set i v } := by
  simp [wr, h1, h2]

theorem andThen_ok (q : Panel) (f : Panel → Except Panel Panel) :
    andThen (.ok q) f = f q := rfl

theorem andThen_error (e : Panel) (f : Panel → Except Panel Panel) :
    andThen (.error e) f = .error e := rfl

theorem maybeShow_buffer (p : Panel) : (maybeShow p).buffer = p.buffer := by
  cases h : p.auto_write <;> simp [maybeShow, show', h]

theorem maybeShow_auto (p : Panel) : (maybeShow p).auto_write = p.auto_write := by
  cases h : p.auto_write <;> simp [maybeShow, show', h]

theorem maybeShow_shows (p : Panel) :
    (maybeShow p).shows = p.shows + (if p.auto_write then 1 else 0) := by
  cases h : p.auto_write <;> simp [maybeShow, show', h]

theorem resState_ok (q : Panel) : resState (Except.ok q : Except Panel Panel) = q := rfl

theorem resState_andThen_show (r : Except Panel Panel) :
    (resState (andThen r fun p => .ok (maybeShow p))).buffer =
      (resState r).buffer := by
  cases r with
  | ok q => simp [andThen, resState, maybeShow_buffer]
  | error e => simp [andThen, resState]

end Panel

/-! Bit-level facts about the mode/control byte, settled by exhausting the
256 byte values. -/

theorem modeField_mask_pix : ∀ b < 256, modeField ((b &&& 0xe6) ||| (0x01 <<< 3)) = 1 := by decide

theorem modeField_mask_bitmap : ∀ b < 256, modeField ((b &&& 0xe6) ||| (0x02 <<< 3)) = 2 := by decide

theorem modeField_mask_str : ∀ b < 256, modeField ((b &&& 0xe6) ||| (0x03 <<< 3)) = 3 := by decide

theorem bit0_mask_pix : ∀ b < 256, Nat.testBit ((b &&& 0xe6) ||| (0x01 <<< 3)) 0 = false := by decide

theorem bit0_mask_bitmap : ∀ b < 256, Nat.testBit ((b &&& 0xe6) ||| (0x02 <<< 3)) 0 = false := by decide

theorem bit0_mask_str : ∀ b < 256, Nat.testBit ((b &&& 0xe6) ||| (0x03 <<< 3)) 0 = false := by decide

theorem or4_bit2 : ∀ b < 256, Nat.testBit (b ||| 4) 2 = true := by decide

theorem or4_bit1 : ∀ b < 256, Nat.testBit (b ||| 4) 1 = Nat.testBit b 1 := by decide

/-! Unfolding lemmas: each method, run on an in-range state, returns
normally with an explicit resulting buffer. -/

namespace Panel

theorem pixel_eq (p : Panel) (x y c : Nat) (h17 : p.buffer.length = 17)
    (hx : x < 256) (hy : y < 256) (hc : c < 256) :
    pixel p x y c = .ok (maybeShow { p with buffer :=
      ((((p.buffer.set 0 write_reg).set 1
          ((byte p.buffer 1 &&& 0xe6) ||| (0x01 <<< 3))).set 2 c).set 3 x).set 4 y }) := by
  have hm : (byte p.buffer 1 &&& 0xe6) ||| 8 < 256 :=
    and_or_lt _ _ _ (by decide) (by decide)
  simp [pixel, wr, andThen_ok, write_reg, h17, hx, hy, hc, hm,
    byte_set_ne, List.length_set]

theorem display_eq (p : Panel) (idx c : Nat) (h17 : p.buffer.length = 17)
    (hidx : idx < 256) (hc : c < 256) :
    display p idx c = .ok (maybeShow { p with buffer :=
      (((p.buffer.set 0 write_reg).set 1
          ((byte p.buffer 1 &&& 0xe6) ||| (0x02 <<< 3))).set 2 c).set 4 idx }) := by
  have hm : (byte p.buffer 1 &&& 0xe6) ||| 16 < 256 :=
    and_or_lt _ _ _ (by decide) (by decide)
  simp [display, wr, andThen_ok, write_reg, h17, hidx, hc, hm,
    byte_set_ne, List.length_set]

theorem fillScreen_eq (p : Panel) (c : Nat) (h17 : p.buffer.length = 17)
    (hc : c < 256) :
    fillScreen p c = .ok (maybeShow { p with buffer :=
      (((((p.buffer.set 0 write_reg).set 1 1).set 1 9).set 2 c).set 3 0).set 4 0 }) := by
  simp [fillScreen, wr, andThen_ok, write_reg, h17, hc, byte_set_self,
    byte_set_ne, List.length_set,
    show ((1 : Nat) &&& 0xe7) ||| (0x01 <<< 3) = 9 from by decide]

theorem clear_eq (p : Panel) (h17 : p.buffer.length = 17) :
    clear p = .ok (maybeShow { p with buffer :=
      ((p.buffer.set 0 write_reg).set 1 1).set 2 0 }) := by
  simp [clear, wr, andThen_ok, write_reg, h17, List.length_set]

theorem scroll_left_eq (p : Panel) (h17 : p.buffer.length = 17)
    (hb1 : byte p.buffer 1 < 256) :
    scroll p (some Left) = .ok (maybeShow { p with buffer :=
      (p.buffer.set 1 (byte p.buffer 1 ||| 4)) }) := by
  have hv : byte p.buffer 1 ||| 4 < 256 := or_lt _ _ hb1 (by norm_num)
  simp [scroll, Left, Right, wr, andThen_ok, h17, hv,
    show pyAndNot 4 2 = 4 from by decide]

theorem scroll_right_eq (p : Panel) (h17 : p.buffer.length = 17)
    (hb1 : byte p.buffer 1 < 256) :
    scroll p (some Right) = .ok (maybeShow { p with buffer :=
      (p.buffer.set 1 (byte p.buffer 1 ||| 6)) }) := by
  have hv : byte p.buffer 1 ||| 6 < 256 := or_lt _ _ hb1 (by norm_num)
  simp [scroll, Left, Right, wr, andThen_ok, h17, hv]

theorem scroll_none_eq (p : Panel) (h17 : p.buffer.length = 17)
    (hb1 : byte p.buffer 1 < 256) :
    scroll p none = .ok (maybeShow { p with buffer :=
      (p.buffer.set 1 (pyAndNot (byte p.buffer 1) 4)) }) := by
  have hv : pyAndNot (byte p.buffer 1) 4 < 256 :=
    lt_of_le_of_lt (pyAndNot_le _ _) hb1
  simp [scroll, wr, andThen_ok, h17, hv]

end Panel

/-! Lemmas about the character loop of `print` and the validation
paths. -/

theorem byte_ext (l1 l2 : List Nat) (hl : l1.length = l2.length)
    (h : ∀ i, byte l1 i = byte l2 i) : l1 = l2 := by
  apply List.ext_getElem hl
  intro i h1 h2
  have hb := h i
  simpa [byte, List.getD, List.get?_eq_getElem?,
    List.getElem?_eq_getElem, h1, h2] using hb

namespace Panel

theorem wr_cases (p : Panel) (i v : Nat) :
    wr p i v = .ok { p with buffer := p.buffer.set i v } ∨
      wr p i v = .error p := by
  unfold wr
  split
  · exact Or.inl rfl
  · exact Or.inr rfl

theorem writeString_ok : ∀ (text : List Nat) (p : Panel) (i : Nat),
    (∀ c ∈ text, c < 256) → 6 + i + text.length ≤ p.buffer.length →
    ∃ q, writeString p text i = .ok q ∧
      q.auto_write = p.auto_write ∧ q.shows = p.shows ∧
      q.buffer.length = p.buffer.length ∧
      (∀ j, j < 6 + i → byte q.buffer j = byte p.buffer j) ∧
      (∀ k, k < text.length → byte q.buffer (6 + i + k) = text.getD k 0)
  | [], p, i, _, _ => by
    refine ⟨p, rfl, rfl, rfl, rfl, fun _ _ => rfl, ?_⟩
    intro k hk
    simp at hk
  | c :: cs, p, i, hmem, hfit => by
    have hlt : 6 + i < p.buffer.length := by
      simp only [List.length_cons] at hfit
      omega
    have hc : c < 256 := hmem c (by simp)
    have hwr : wr p (6 + i) c =
        .ok { p with buffer := p.buffer.set (6 + i) c } :=
      wr_ok _ _ _ hlt hc
    obtain ⟨q, hq, hauto, hshows, hlen, hlow, hhigh⟩ :=
      writeString_ok cs { p with buffer := p.buffer.set (6 + i) c } (i + 1)
        (fun d hd => hmem d (by simp [hd]))
        (by simp only [List.length_set, List.length_cons] at hfit ⊢; omega)
    refine ⟨q, ?_, ?_, ?_, ?_, ?_, ?_⟩
    · simp [writeString, hwr, andThen_ok, hq]
    · simpa using hauto
    · simpa using hshows
    · simpa using hlen
    · intro j hj
      have hl := hlow j (by omega)
      simp only at hl
      rw [hl]
      exact byte_set_ne _ _ _ _ (by omega)
    · intro k hk
      match k with
      | 0 =>
        have hl := hlow (6 + i) (by omega)
        simp only at hl
        simp [hl, byte_set_self _ _ _ hlt]
      | k' + 1 =>
        have harr : 6 + i + (k' + 1) = 6 + (i + 1) + k' := by omega
        rw [harr, hhigh k' (by simpa using Nat.lt_of_succ_lt_succ (by simpa using hk))]
        simp

theorem writeString_low : ∀ (text : List Nat) (p : Panel) (i j : Nat),
    j < 6 + i →
    byte (resState (writeString p text i)).buffer j = byte p.buffer j
  | [], _, _, _, _ => rfl
  | c :: cs, p, i, j, hj => by
    rcases wr_cases p (6 + i) c with hw | hw
    · simp only [writeString, hw, andThen_ok]
      rw [writeString_low cs _ (i + 1) j (by omega)]
      exact byte_set_ne _ _ _ _ (by omega)
    · simp [writeString, hw, andThen_error, resState]

theorem print_long (p : Panel) (text : List Nat) (color : Nat)
    (h : text.length > 50) : print p text color = .ok p := by
  have hgt : text.length > SIZE := by simpa [SIZE] using h
  simp [print, hgt]

theorem scroll_invalid (p : Panel) (d : Nat) (h0 : d ≠ Left) (h2 : d ≠ Right) :
    scroll p (some d) = .ok p := by
  have hcond : (some d ≠ (none : Option Nat)) ∧ some d ≠ some Right ∧
      some d ≠ some Left := ⟨by simp, by simpa using h2, by simpa using h0⟩
  simp [scroll, hcond]

theorem print_eq (p : Panel) (text : List Nat) (color : Nat)
    (h17 : p.buffer.length = 17) (hc : color < 256) (hlen : text.length ≤ 50) :
    print p text color =
      andThen (writeString { p with buffer :=
        (((p.buffer.set 0 write_reg).set 1
          ((byte p.buffer 1 &&& 0xe6) ||| (0x03 <<< 3))).set 2 color) } text 0)
        (fun q => .ok (maybeShow q)) := by
  have hm : (byte p.buffer 1 &&& 0xe6) ||| 24 < 256 :=
    and_or_lt _ _ _ (by decide) (by decide)
  have hgt : ¬ text.length > SIZE := by simp only [SIZE]; omega
  simp [print, hgt, wr, andThen_ok, write_reg, h17, hc, hm,
    byte_set_ne, List.length_set]

theorem print_ok (p : Panel) (text : List Nat) (color : Nat)
    (h17 : p.buffer.length = 17) (hc : color < 256) (hlen : text.length ≤ 11)
    (hmem : ∀ c ∈ text, c < 256) :
    ∃ q, print p text color = .ok (maybeShow q) ∧
      q.auto_write = p.auto_write ∧ q.shows = p.shows ∧ q.buffer.length = 17 ∧
      byte q.buffer 0 = write_reg ∧
      byte q.buffer 1 = ((byte p.buffer 1 &&& 0xe6) ||| (0x03 <<< 3)) ∧
      byte q.buffer 2 = color ∧
      (∀ k, k < text.length → byte q.buffer (6 + k) = text.getD k 0) := by
  rw [print_eq p text color h17 hc (by omega)]
  obtain ⟨q, hq, hauto, hshows, hlen', hlow, hhigh⟩ :=
    writeString_ok text
      { p with buffer :=
        (((p.buffer.set 0 write_reg).set 1
          ((byte p.buffer 1 &&& 0xe6) ||| (0x03 <<< 3))).set 2 color) }
      0 hmem (by simp only [List.length_set]; simp [h17]; omega)
  rw [hq, andThen_ok]
  refine ⟨q, rfl, ?_, ?_, ?_, ?_, ?_, ?_, ?_⟩
  · simpa using hauto
  · simpa using hshows
  · simpa [List.length_set, h17] using hlen'
  · rw [hlow 0 (by omega)]
    simp [write_reg, byte_set_ne, byte_set_self, List.length_set, h17]
  · rw [hlow 1 (by omega)]
    simp [byte_set_ne, byte_set_self, List.length_set, h17]
  · rw [hlow 2 (by omega)]
    simp [byte_set_self, List.length_set, h17]
  · intro k hk
    have hh := hhigh k hk
    simpa using hh

theorem print_resState_byte1 (p : Panel) (text : List Nat) (color : Nat)
    (h17 : p.buffer.length = 17) (hc : color < 256) (hlen : text.length ≤ 50) :
    byte (resState (print p text color)).buffer 1 =
      ((byte p.buffer 1 &&& 0xe6) ||| (0x03 <<< 3)) := by
  rw [print_eq p text color h17 hc hlen]
  rw [show (fun q => (Except.ok (maybeShow q) : Except Panel Panel)) =
    fun q => .ok (maybeShow q) from rfl]
  rw [resState_andThen_show]
  rw [writeString_low text _ 0 1 (by omega)]
  simp [byte_set_ne, byte_set_self, List.length_set, h17]

end Panel

/-! Claim theorems. -/

/-- Claim C1: for every prior buffer state, every color code in 0..7 and
coordinates in 0..255, `pixel(x, y, c)` returns normally and afterwards
byte 0 equals the write-register constant, the 2-bit mode field (bits 3-4 of
byte 1) equals the pixel-mode value 1, byte 2 equals `c`, byte 3 equals `x`,
byte 4 equals `y`, and every byte other than bytes 0-4 is unchanged. -/
theorem pixel_encodes_command (p : Panel) (c x y : Nat)
    (hv : validBuf p.buffer) (hc : c ≤ 7) (hx : x < 256) (hy : y < 256) :
    ∃ q, Panel.pixel p x y c = .ok q ∧
      byte q.buffer 0 = Panel.write_reg ∧
      modeField (byte q.buffer 1) = 1 ∧
      byte q.buffer 2 = c ∧
      byte q.buffer 3 = x ∧
      byte q.buffer 4 = y ∧
      (∀ i, 5 ≤ i → byte q.buffer i = byte p.buffer i) := by
  obtain ⟨h17, hb⟩ := hv
  have hb1 : byte p.buffer 1 < 256 := byte_lt _ _ hb
  refine ⟨_, Panel.pixel_eq p x y c h17 hx hy (by omega), ?_, ?_, ?_, ?_, ?_, ?_⟩
  · simp [Panel.maybeShow_buffer, byte_set_ne, byte_set_self,
      List.length_set, h17, Panel.write_reg]
  · simp only [Panel.maybeShow_buffer]
    simp [byte_set_ne, byte_set_self, List.length_set, h17]
    exact modeField_mask_pix _ hb1
  · simp [Panel.maybeShow_buffer, byte_set_ne, byte_set_self,
      List.length_set, h17]
  · simp [Panel.maybeShow_buffer, byte_set_ne, byte_set_self,
      List.length_set, h17]
  · simp [Panel.maybeShow_buffer, byte_set_ne, byte_set_self,
      List.length_set, h17]
  · intro i hi
    have g4 : (4 : Nat) ≠ i := by omega
    have g3 : (3 : Nat) ≠ i := by omega
    have g2 : (2 : Nat) ≠ i := by omega
    have g1 : (1 : Nat) ≠ i := by omega
    have g0 : (0 : Nat) ≠ i := by omega
    simp [Panel.maybeShow_buffer, byte_set_ne _ _ _ _ g4,
      byte_set_ne _ _ _ _ g3, byte_set_ne _ _ _ _ g2,
      byte_set_ne _ _ _ _ g1, byte_set_ne _ _ _ _ g0]

/-- Witness for claim C1 at a concrete input: a fresh panel,
color 7, x 3, y 5. -/
theorem pixel_encodes_command_witness :
    validBuf (Panel.init true).buffer ∧
    (∃ q, Panel.pixel (Panel.init true) 3 5 7 = .ok q ∧
      byte q.buffer 0 = Panel.write_reg ∧
      modeField (byte q.buffer 1) = 1 ∧
      byte q.buffer 2 = 7 ∧
      byte q.buffer 3 = 3 ∧
      byte q.buffer 4 = 5 ∧
      (∀ i, 5 ≤ i → byte q.buffer i = byte (Panel.init true).buffer i)) :=
  ⟨by decide, pixel_encodes_command (Panel.init true) 7 3 5 (by decide)
    (by decide) (by decide) (by decide)⟩

/-- Claim C2 counterexample: on a buffer whose byte 1 has the
scroll-direction bit (bit 1) already set, `scroll(Left)` leaves it set:
byte 1 goes from 2 to 6, whose bit 1 is 1, not 0 as the claim states.
The left-branch mask `(0x01 << 2) & (~(0x01 << 1))` evaluates to 4 before
it is OR-ed in, so the direction bit is never cleared. -/
theorem scroll_left_counterexample :
    Panel.isOk (Panel.scroll
      (⟨(List.replicate 17 0).set 1 2, false, 0⟩ : Panel) (some Panel.Left)) = true ∧
    byte (Panel.resState (Panel.scroll
      (⟨(List.replicate 17 0).set 1 2, false, 0⟩ : Panel) (some Panel.Left))).buffer 1 = 6 ∧
    Nat.testBit 6 1 = true ∧
    ¬ Nat.testBit (byte (Panel.resState (Panel.scroll
      (⟨(List.replicate 17 0).set 1 2, false, 0⟩ : Panel) (some Panel.Left))).buffer 1) 1 = false := by
  decide

/-- Claim C2 amended: `scroll(Left)` sets the scroll-enable bit (bit 2 of
byte 1) but leaves the scroll-direction bit (bit 1) unchanged, because the
clearing mask is applied to the constant 4 before the OR-assignment, making
the clear a no-op: afterwards byte 1 equals its prior value OR 4. -/
theorem scroll_left_sets_enable_only (p : Panel) (hv : validBuf p.buffer) :
    ∃ q, Panel.scroll p (some Panel.Left) = .ok q ∧
      byte q.buffer 1 = (byte p.buffer 1 ||| 4) ∧
      Nat.testBit (byte q.buffer 1) 2 = true ∧
      Nat.testBit (byte q.buffer 1) 1 = Nat.testBit (byte p.buffer 1) 1 := by
  obtain ⟨h17, hb⟩ := hv
  have hb1 : byte p.buffer 1 < 256 := byte_lt _ _ hb
  refine ⟨_, Panel.scroll_left_eq p h17 hb1, ?_, ?_, ?_⟩
  · simp only [Panel.maybeShow_buffer]
    rw [byte_set_self p.buffer 1 (byte p.buffer 1 ||| 4) (by omega)]
  · simp only [Panel.maybeShow_buffer]
    rw [byte_set_self p.buffer 1 (byte p.buffer 1 ||| 4) (by omega)]
    exact or4_bit2 _ hb1
  · simp only [Panel.maybeShow_buffer]
    rw [byte_set_self p.buffer 1 (byte p.buffer 1 ||| 4) (by omega)]
    exact or4_bit1 _ hb1

/-- Witness for the amended claim C2 at a concrete input. -/
theorem scroll_left_sets_enable_only_witness :
    validBuf (⟨(List.replicate 17 0).set 1 2, false, 0⟩ : Panel).buffer ∧
    (∃ q, Panel.scroll (⟨(List.replicate 17 0).set 1 2, false, 0⟩ : Panel)
        (some Panel.Left) = .ok q ∧
      byte q.buffer 1 =
        (byte (⟨(List.replicate 17 0).set 1 2, false, 0⟩ : Panel).buffer 1 ||| 4) ∧
      Nat.testBit (byte q.buffer 1) 2 = true ∧
      Nat.testBit (byte q.buffer 1) 1 =
        Nat.testBit (byte (⟨(List.replicate 17 0).set 1 2, false, 0⟩ : Panel).buffer 1) 1) :=
  ⟨by decide, scroll_left_sets_enable_only _ (by decide)⟩

/-- Claim C3 counterexample: on a fresh panel, `fillScreen(0)` leaves
byte 1 equal to 0x09, whose 2-bit mode field (bits 3-4) is 1, not the
fill-mode value 0 claimed: the source sets byte 1 to 0x01 and then ORs in
`0x01 << 3`, the same mode value that `pixel` uses. -/
theorem fillScreen_mode_counterexample :
    Panel.isOk (Panel.fillScreen (Panel.init true) 0) = true ∧
    byte (Panel.resState (Panel.fillScreen (Panel.init true) 0)).buffer 1 = 9 ∧
    modeField (byte (Panel.resState
      (Panel.fillScreen (Panel.init true) 0)).buffer 1) = 1 ∧
    ¬ modeField (byte (Panel.resState
      (Panel.fillScreen (Panel.init true) 0)).buffer 1) = 0 := by
  decide

/-- Claim C3 amended: for every prior buffer state and every color, after
`fillScreen(c)` byte 1 equals 0x09, so the 2-bit mode field (bits 3-4 of
byte 1) equals 1 (the same field value as pixel mode), not 0. -/
theorem fillScreen_mode_field (p : Panel) (c : Nat) (hv : validBuf p.buffer)
    (hc : c < 256) :
    ∃ q, Panel.fillScreen p c = .ok q ∧ byte q.buffer 1 = 9 ∧
      modeField (byte q.buffer 1) = 1 := by
  obtain ⟨h17, hb⟩ := hv
  refine ⟨_, Panel.fillScreen_eq p c h17 hc, ?_, ?_⟩
  · simp [Panel.maybeShow_buffer, byte_set_ne, byte_set_self,
      List.length_set, h17]
  · simp [Panel.maybeShow_buffer, byte_set_ne, byte_set_self,
      List.length_set, h17]
    decide

/-- Witness for the amended claim C3 at a concrete input. -/
theorem fillScreen_mode_field_witness :
    validBuf (Panel.init false).buffer ∧
    (∃ q, Panel.fillScreen (Panel.init false) 3 = .ok q ∧
      byte q.buffer 1 = 9 ∧ modeField (byte q.buffer 1) = 1) :=
  ⟨by decide, fillScreen_mode_field (Panel.init false) 3 (by decide) (by decide)⟩

/-- Claim C4: the buffer is 17 bytes (`self._buffer_size = 17` with one
I2C device), yet `print` accepts texts up to length 50 and writes at
indices 6..6+len-1.  On a freshly constructed panel, a 12-character text
(length well within the claimed bound of 50) drives the loop to buffer
index 17 and raises `IndexError`, so the call does not succeed, while an
11-character text still does. -/
theorem print_overflow_raises :
    (List.replicate 12 65).length ≤ 50 ∧
    Panel.isOk (Panel.print (Panel.init true) (List.replicate 12 65) 1) = false ∧
    Panel.isOk (Panel.print (Panel.init true) (List.replicate 11 65) 1) = true := by
  decide

/-- Claim C5: input-validation failures are atomic and flush-free: a
`print` whose text exceeds 50 characters, and a `scroll` whose direction is
an integer other than `Left` and `Right` (and not `None`), return normally
with the whole driver state - buffer bytes and flush count alike -
identical to the pre-call state. -/
theorem validation_rejects_atomically (p : Panel) (text : List Nat)
    (color d : Nat) (hlong : text.length > 50)
    (h0 : d ≠ Panel.Left) (h2 : d ≠ Panel.Right) :
    Panel.print p text color = .ok p ∧ Panel.scroll p (some d) = .ok p :=
  ⟨Panel.print_long p text color hlong, Panel.scroll_invalid p d h0 h2⟩

/-- Witness for claim C5 at a concrete input: a 51-character text and the
direction 5, on a fresh panel with auto-flush enabled. -/
theorem validation_rejects_atomically_witness :
    (List.replicate 51 65).length > 50 ∧ (5 : Nat) ≠ Panel.Left ∧
    (5 : Nat) ≠ Panel.Right ∧
    (Panel.print (Panel.init true) (List.replicate 51 65) 3 = .ok (Panel.init true) ∧
      Panel.scroll (Panel.init true) (some 5) = .ok (Panel.init true)) :=
  ⟨by decide, by decide, by decide,
    validation_rejects_atomically (Panel.init true) (List.replicate 51 65) 3 5
      (by decide) (by decide) (by decide)⟩

/-- Claim C6: mode-field mutual exclusivity.  For every prior value of
byte 1, after `pixel`, `display`, `print` and `fillScreen` the 2-bit mode
field (bits 3-4 of byte 1) equals exactly the 2-bit value the call ORs in
(1, 2, 3 and 1 respectively; the value `fillScreen` selects in the source
is `0x01 << 3`, see claim C3), with no stale bits of a previously selected
mode remaining.  The state is taken through `resState`, so the property
holds for `print` even when its character loop raises. -/
theorem mode_field_exclusive (p : Panel) (c x y idx : Nat) (text : List Nat)
    (hv : validBuf p.buffer) (hc : c < 256) (hx : x < 256) (hy : y < 256)
    (hidx : idx < 256) (htext : text.length ≤ 50) :
    modeField (byte (Panel.resState (Panel.pixel p x y c)).buffer 1) = 1 ∧
    modeField (byte (Panel.resState (Panel.display p idx c)).buffer 1) = 2 ∧
    modeField (byte (Panel.resState (Panel.print p text c)).buffer 1) = 3 ∧
    modeField (byte (Panel.resState (Panel.fillScreen p c)).buffer 1) = 1 := by
  obtain ⟨h17, hb⟩ := hv
  have hb1 : byte p.buffer 1 < 256 := byte_lt _ _ hb
  refine ⟨?_, ?_, ?_, ?_⟩
  · rw [Panel.pixel_eq p x y c h17 hx hy hc, Panel.resState_ok]
    simp only [Panel.maybeShow_buffer]
    simp only [byte_set_ne _ _ _ _ (show (4 : Nat) ≠ 1 from by decide),
      byte_set_ne _ _ _ _ (show (3 : Nat) ≠ 1 from by decide),
      byte_set_ne _ _ _ _ (show (2 : Nat) ≠ 1 from by decide)]
    rw [byte_set_self _ _ _ (by simp [List.length_set, h17])]
    exact modeField_mask_pix _ hb1
  · rw [Panel.display_eq p idx c h17 hidx hc, Panel.resState_ok]
    simp only [Panel.maybeShow_buffer]
    simp only [byte_set_ne _ _ _ _ (show (4 : Nat) ≠ 1 from by decide),
      byte_set_ne _ _ _ _ (show (2 : Nat) ≠ 1 from by decide)]
    rw [byte_set_self _ _ _ (by simp [List.length_set, h17])]
    exact modeField_mask_bitmap _ hb1
  · rw [Panel.print_resState_byte1 p text c h17 hc htext]
    exact modeField_mask_str _ hb1
  · rw [Panel.fillScreen_eq p c h17 hc, Panel.resState_ok]
    simp only [Panel.maybeShow_buffer]
    simp only [byte_set_ne _ _ _ _ (show (4 : Nat) ≠ 1 from by decide),
      byte_set_ne _ _ _ _ (show (3 : Nat) ≠ 1 from by decide),
      byte_set_ne _ _ _ _ (show (2 : Nat) ≠ 1 from by decide)]
    rw [byte_set_self _ _ _ (by simp [List.length_set, h17])]
    decide

/-- Witness for claim C6 at a concrete input: a panel whose byte 1 starts
with all mode bits set. -/
theorem mode_field_exclusive_witness :
    validBuf (⟨(List.replicate 17 0).set 1 0xff, true, 0⟩ : Panel).buffer ∧
    (modeField (byte (Panel.resState (Panel.pixel
      (⟨(List.replicate 17 0).set 1 0xff, true, 0⟩ : Panel) 1 2 3)).buffer 1) = 1 ∧
    modeField (byte (Panel.resState (Panel.display
      (⟨(List.replicate 17 0).set 1 0xff, true, 0⟩ : Panel) 4 3)).buffer 1) = 2 ∧
    modeField (byte (Panel.resState (Panel.print
      (⟨(List.replicate 17 0).set 1 0xff, true, 0⟩ : Panel) [72, 105] 3)).buffer 1) = 3 ∧
    modeField (byte (Panel.resState (Panel.fillScreen
      (⟨(List.replicate 17 0).set 1 0xff, true, 0⟩ : Panel) 3)).buffer 1) = 1) :=
  ⟨by decide, mode_field_exclusive _ 3 1 2 4 [72, 105] (by decide) (by decide)
    (by decide) (by decide) (by decide) (by decide)⟩

/-- Claim C8: for every prior buffer state and every color,
`fillScreen(c)` sets byte 3 and byte 4 of the buffer to zero. -/
theorem fillScreen_zeroes_coords (p : Panel) (c : Nat)
    (hv : validBuf p.buffer) (hc : c < 256) :
    ∃ q, Panel.fillScreen p c = .ok q ∧
      byte q.buffer 3 = 0 ∧ byte q.buffer 4 = 0 := by
  obtain ⟨h17, hb⟩ := hv
  refine ⟨_, Panel.fillScreen_eq p c h17 hc, ?_, ?_⟩
  · simp [Panel.maybeShow_buffer, byte_set_ne, byte_set_self,
      List.length_set, h17]
  · simp [Panel.maybeShow_buffer, byte_set_ne, byte_set_self,
      List.length_set, h17]

/-- Witness for claim C8 at a concrete input: a panel whose bytes 3 and 4
start nonzero. -/
theorem fillScreen_zeroes_coords_witness :
    validBuf (⟨((List.replicate 17 0).set 3 99).set 4 88, false, 0⟩ : Panel).buffer ∧
    (∃ q, Panel.fillScreen
        (⟨((List.replicate 17 0).set 3 99).set 4 88, false, 0⟩ : Panel) 6 = .ok q ∧
      byte q.buffer 3 = 0 ∧ byte q.buffer 4 = 0) :=
  ⟨by decide, fillScreen_zeroes_coords _ 6 (by decide) (by decide)⟩

/-- Claim C7 counterexample: with auto-flush enabled on a fresh panel, a
`print` of a 12-character text - within the claimed bound of 50 - raises
`IndexError` in the character loop before reaching the flush, so it
triggers zero flushes rather than exactly one. -/
theorem autoflush_print_counterexample :
    (Panel.init true).auto_write = true ∧
    (List.replicate 12 65).length ≤ 50 ∧
    (Panel.resState (Panel.print (Panel.init true)
      (List.replicate 12 65) 1)).shows = 0 := by
  decide

/-- Claim C7 amended: when auto-flush is enabled, every valid mutating
call - `pixel`, `print` with a text of at most 11 characters (the longest
that fits the 17-byte buffer; lengths 12 to 50 raise before flushing, see
claim C4), `fillScreen`, `clear`, `display`, and `scroll` with direction
None, Left or Right - returns normally and performs exactly one flush;
when auto-flush is disabled, these calls perform none, and a flush happens
only when `show` is called explicitly. -/
theorem autoflush_spec (p : Panel) (c x y idx : Nat) (text : List Nat)
    (d : Option Nat) (hv : validBuf p.buffer) (hc : c < 256) (hx : x < 256)
    (hy : y < 256) (hidx : idx < 256) (htext : text.length ≤ 11)
    (hmem : ∀ ch ∈ text, ch < 256)
    (hd : d = none ∨ d = some Panel.Left ∨ d = some Panel.Right) :
    (Panel.isOk (Panel.pixel p x y c) = true ∧
      (Panel.resState (Panel.pixel p x y c)).shows =
        p.shows + (if p.auto_write then 1 else 0)) ∧
    (Panel.isOk (Panel.print p text c) = true ∧
      (Panel.resState (Panel.print p text c)).shows =
        p.shows + (if p.auto_write then 1 else 0)) ∧
    (Panel.isOk (Panel.fillScreen p c) = true ∧
      (Panel.resState (Panel.fillScreen p c)).shows =
        p.shows + (if p.auto_write then 1 else 0)) ∧
    (Panel.isOk (Panel.clear p) = true ∧
      (Panel.resState (Panel.clear p)).shows =
        p.shows + (if p.auto_write then 1 else 0)) ∧
    (Panel.isOk (Panel.display p idx c) = true ∧
      (Panel.resState (Panel.display p idx c)).shows =
        p.shows + (if p.auto_write then 1 else 0)) ∧
    (Panel.isOk (Panel.scroll p d) = true ∧
      (Panel.resState (Panel.scroll p d)).shows =
        p.shows + (if p.auto_write then 1 else 0)) ∧
    (Panel.show' p).shows = p.shows + 1 := by
  obtain ⟨h17, hb⟩ := hv
  have hb1 : byte p.buffer 1 < 256 := byte_lt _ _ hb
  refine ⟨?_, ?_, ?_, ?_, ?_, ?_, rfl⟩
  · rw [Panel.pixel_eq p x y c h17 hx hy hc]
    exact ⟨rfl, by simp [Panel.resState, Panel.maybeShow_shows]⟩
  · obtain ⟨q, hq, hauto, hshows, -, -, -, -, -⟩ :=
      Panel.print_ok p text c h17 hc htext hmem
    rw [hq]
    exact ⟨rfl, by simp [Panel.resState, Panel.maybeShow_shows, hauto, hshows]⟩
  · rw [Panel.fillScreen_eq p c h17 hc]
    exact ⟨rfl, by simp [Panel.resState, Panel.maybeShow_shows]⟩
  · rw [Panel.clear_eq p h17]
    exact ⟨rfl, by simp [Panel.resState, Panel.maybeShow_shows]⟩
  · rw [Panel.display_eq p idx c h17 hidx hc]
    exact ⟨rfl, by simp [Panel.resState, Panel.maybeShow_shows]⟩
  · rcases hd with rfl | rfl | rfl
    · rw [Panel.scroll_none_eq p h17 hb1]
      exact ⟨rfl, by simp [Panel.resState, Panel.maybeShow_shows]⟩
    · rw [Panel.scroll_left_eq p h17 hb1]
      exact ⟨rfl, by simp [Panel.resState, Panel.maybeShow_shows]⟩
    · rw [Panel.scroll_right_eq p h17 hb1]
      exact ⟨rfl, by simp [Panel.resState, Panel.maybeShow_shows]⟩

/-- Witness for the amended claim C7 at a concrete input: a fresh panel
with auto-flush enabled, the empty text and direction None. -/
theorem autoflush_spec_witness :
    validBuf (Panel.init true).buffer ∧
    (([] : List Nat).length ≤ 11) ∧ (∀ ch ∈ ([] : List Nat), ch < 256) ∧
    ((none : Option Nat) = none ∨ (none : Option Nat) = some Panel.Left ∨
      (none : Option Nat) = some Panel.Right) ∧
    ((Panel.isOk (Panel.pixel (Panel.init true) 0 0 0) = true ∧
      (Panel.resState (Panel.pixel (Panel.init true) 0 0 0)).shows =
        (Panel.init true).shows +
          (if (Panel.init true).auto_write then 1 else 0)) ∧
    (Panel.isOk (Panel.print (Panel.init true) [] 0) = true ∧
      (Panel.resState (Panel.print (Panel.init true) [] 0)).shows =
        (Panel.init true).shows +
          (if (Panel.init true).auto_write then 1 else 0)) ∧
    (Panel.isOk (Panel.fillScreen (Panel.init true) 0) = true ∧
      (Panel.resState (Panel.fillScreen (Panel.init true) 0)).shows =
        (Panel.init true).shows +
          (if (Panel.init true).auto_write then 1 else 0)) ∧
    (Panel.isOk (Panel.clear (Panel.init true)) = true ∧
      (Panel.resState (Panel.clear (Panel.init true))).shows =
        (Panel.init true).shows +
          (if (Panel.init true).auto_write then 1 else 0)) ∧
    (Panel.isOk (Panel.display (Panel.init true) 0 0) = true ∧
      (Panel.resState (Panel.display (Panel.init true) 0 0)).shows =
        (Panel.init true).shows +
          (if (Panel.init true).auto_write then 1 else 0)) ∧
    (Panel.isOk (Panel.scroll (Panel.init true) none) = true ∧
      (Panel.resState (Panel.scroll (Panel.init true) none)).shows =
        (Panel.init true).shows +
          (if (Panel.init true).auto_write then 1 else 0)) ∧
    (Panel.show' (Panel.init true)).shows = (Panel.init true).shows + 1) :=
  ⟨by decide, by decide, by decide, Or.inl rfl,
    autoflush_spec (Panel.init true) 0 0 0 0 [] none (by decide) (by decide)
      (by decide) (by decide) (by decide) (by decide) (by decide)
      (Or.inl rfl)⟩

/-- Claim C9: `clear()` is idempotent on the buffer: clearing twice leaves
the buffer exactly as clearing once does. -/
theorem clear_idempotent (p : Panel) (hv : validBuf p.buffer) :
    ∃ q1 q2, Panel.clear p = .ok q1 ∧ Panel.clear q1 = .ok q2 ∧
      q2.buffer = q1.buffer := by
  obtain ⟨h17, hb⟩ := hv
  refine ⟨_, _, Panel.clear_eq p h17,
    Panel.clear_eq _ (by simp [Panel.maybeShow_buffer, List.length_set, h17]),
    ?_⟩
  simp only [Panel.maybeShow_buffer]
  apply byte_ext
  · simp [List.length_set]
  · intro i
    by_cases g0 : i = 0
    · subst g0
      simp [byte_set_ne, byte_set_self, List.length_set, h17]
    · by_cases g1 : i = 1
      · subst g1
        simp [byte_set_ne, byte_set_self, List.length_set, h17]
      · by_cases g2 : i = 2
        · subst g2
          simp [byte_set_ne, byte_set_self, List.length_set, h17]
        · have n0 : (0 : Nat) ≠ i := fun h => g0 h.symm
          have n1 : (1 : Nat) ≠ i := fun h => g1 h.symm
          have n2 : (2 : Nat) ≠ i := fun h => g2 h.symm
          simp [byte_set_ne _ _ _ _ n0, byte_set_ne _ _ _ _ n1,
            byte_set_ne _ _ _ _ n2]

/-- Witness for claim C9 at a concrete input: a fresh panel with auto-flush
disabled. -/
theorem clear_idempotent_witness :
    validBuf (Panel.init false).buffer ∧
    (∃ q1 q2, Panel.clear (Panel.init false) = .ok q1 ∧
      Panel.clear q1 = .ok q2 ∧ q2.buffer = q1.buffer) :=
  ⟨by decide, clear_idempotent (Panel.init false) (by decide)⟩

/-- Claim C10: the byte-1 mask 0xe6 of `pixel`, `print` and `display`
clears bit 0 (the clear-state flag) in addition to the 2-bit mode field:
after any of these calls bit 0 of byte 1 is 0, whatever it was before.
The state is taken through `resState`, so the property holds for `print`
even when its character loop raises. -/
theorem byte1_bit0_cleared (p : Panel) (c x y idx : Nat) (text : List Nat)
    (hv : validBuf p.buffer) (hc : c < 256) (hx : x < 256) (hy : y < 256)
    (hidx : idx < 256) (htext : text.length ≤ 50) :
    Nat.testBit (byte (Panel.resState (Panel.pixel p x y c)).buffer 1) 0 = false ∧
    Nat.testBit (byte (Panel.resState (Panel.print p text c)).buffer 1) 0 = false ∧
    Nat.testBit (byte (Panel.resState (Panel.display p idx c)).buffer 1) 0 = false := by
  obtain ⟨h17, hb⟩ := hv
  have hb1 : byte p.buffer 1 < 256 := byte_lt _ _ hb
  refine ⟨?_, ?_, ?_⟩
  · rw [Panel.pixel_eq p x y c h17 hx hy hc, Panel.resState_ok]
    simp only [Panel.maybeShow_buffer]
    simp only [byte_set_ne _ _ _ _ (show (4 : Nat) ≠ 1 from by decide),
      byte_set_ne _ _ _ _ (show (3 : Nat) ≠ 1 from by decide),
      byte_set_ne _ _ _ _ (show (2 : Nat) ≠ 1 from by decide)]
    rw [byte_set_self _ _ _ (by simp [List.length_set, h17])]
    exact bit0_mask_pix _ hb1
  · rw [Panel.print_resState_byte1 p text c h17 hc htext]
    exact bit0_mask_str _ hb1
  · rw [Panel.display_eq p idx c h17 hidx hc, Panel.resState_ok]
    simp only [Panel.maybeShow_buffer]
    simp only [byte_set_ne _ _ _ _ (show (4 : Nat) ≠ 1 from by decide),
      byte_set_ne _ _ _ _ (show (2 : Nat) ≠ 1 from by decide)]
    rw [byte_set_self _ _ _ (by simp [List.length_set, h17])]
    exact bit0_mask_bitmap _ hb1

/-- Witness for claim C10 at a concrete input: a panel whose byte 1 starts
as 0xff, with bit 0 set. -/
theorem byte1_bit0_cleared_witness :
    validBuf (⟨(List.replicate 17 0).set 1 0xff, false, 0⟩ : Panel).buffer ∧
    (Nat.testBit (byte (Panel.resState (Panel.pixel
      (⟨(List.replicate 17 0).set 1 0xff, false, 0⟩ : Panel) 1 2 3)).buffer 1) 0 = false ∧
    Nat.testBit (byte (Panel.resState (Panel.print
      (⟨(List.replicate 17 0).set 1 0xff, false, 0⟩ : Panel) [65] 3)).buffer 1) 0 = false ∧
    Nat.testBit (byte (Panel.resState (Panel.display
      (⟨(List.replicate 17 0).set 1 0xff, false, 0⟩ : Panel) 2 3)).buffer 1) 0 = false) :=
  ⟨by decide, byte1_bit0_cleared _ 3 1 2 2 [65] (by decide) (by decide)
    (by decide) (by decide) (by decide) (by decide)⟩
